import Mathlib

set_option exponentiation.threshold 2000

/-
Verification of vtkVolumeReconstructor (PlusLib VolumeReconstruction wrapper).

Shallow embedding of src/PlusLib/src/VolumeReconstruction/vtkVolumeReconstructor.cxx.
Doubles are modelled as rationals; 4x4 matrices over the rationals model vtkMatrix4x4.
PlusStatus is the two-valued status type used throughout PlusLib.
-/

namespace PlusVolRec

/-- PlusStatus from PlusConfigure.h: every fallible operation reports one of these. -/
inductive PlusStatus where
  | PLUS_SUCCESS : PlusStatus
  | PLUS_FAIL : PlusStatus
deriving DecidableEq, Repr

open PlusStatus

/-- vtkMatrix4x4, modelled as a 4x4 rational matrix. -/
abbrev Mat4 := Matrix (Fin 4) (Fin 4) ℚ

/-- A homogeneous 4-vector of doubles. -/
abbrev Vec4 := Fin 4 → ℚ

/-- vtkMatrix4x4::Multiply4x4(a, b, out): out[i][j] = sum over k of a[i][k]*b[k][j]. -/
def multiply4x4 (a b : Mat4) : Mat4 :=
  Matrix.of fun i j => ∑ k : Fin 4, a i k * b k j

/-- vtkMatrix4x4::MultiplyPoint(in, out): out[i] = sum over j of m[i][j]*in[j]. -/
def multiplyPoint (m : Mat4) (v : Vec4) : Vec4 :=
  fun i => ∑ j : Fin 4, m i j * v j

/-- vtkImageData, reduced to what vtkVolumeReconstructor reads from a frame image:
its 6-entry integer extent array (GetExtent). -/
structure VtkImageData where
  extent0 : Int
  extent1 : Int
  extent2 : Int
  extent3 : Int
  extent4 : Int
  extent5 : Int
deriving DecidableEq, Repr

/-- TrackedFrame, reduced to what vtkVolumeReconstructor reads from it:
GetDefaultFrameTransform (the tool-to-reference pose; returns failure when no valid
pose was recorded, modelled by `none`) and ImageData.GetVtkImageNonFlipped. -/
structure TrackedFrame where
  defaultFrameTransform : Option Mat4
  imageData : VtkImageData

/-- vtkVolumeReconstructor::GetImageToReferenceTransformMatrix(toolToReference, out)
(line 110): out = ToolToReference * ImageToTool via vtkMatrix4x4::Multiply4x4.
`imageToTool` is the stored ImageToToolTransform member. -/
def getImageToReferenceTransformMatrixM (imageToTool toolToReference : Mat4) : Mat4 :=
  multiply4x4 toolToReference imageToTool

/-- vtkVolumeReconstructor::GetImageToReferenceTransformMatrix(frame, out) (line 119):
fails (PLUS_FAIL, modelled by `none`) when the frame has no default frame transform,
otherwise composes the pose with the calibration. -/
def getImageToReferenceTransformFrame (imageToTool : Mat4) (frame : TrackedFrame) :
    Option Mat4 :=
  match frame.defaultFrameTransform with
  | none => none
  | some toolToReference =>
      some (getImageToReferenceTransformMatrixM imageToTool toolToReference)

/-- VTK_DOUBLE_MAX (= DBL_MAX = 1.7976931348623157e308), as an exact rational. -/
def vtkDoubleMax : ℚ := 17976931348623157 * 10 ^ 292

/-- VTK_DOUBLE_MIN, defined by VTK as -VTK_DOUBLE_MAX. -/
def vtkDoubleMin : ℚ := -vtkDoubleMax

/-- The running physical bounding box extent_Ref[6] of SetOutputExtentFromFrameList:
fields correspond to extent_Ref[0..5] = xmin, xmax, ymin, ymax, zmin, zmax. -/
@[ext]
structure ExtentRef where
  xmin : ℚ
  xmax : ℚ
  ymin : ℚ
  ymax : ℚ
  zmin : ℚ
  zmax : ℚ
deriving DecidableEq, Repr

/-- The sentinel initial value of extent_Ref (lines 176-181):
{VTK_DOUBLE_MAX, VTK_DOUBLE_MIN} on every axis. -/
def initExtentRef : ExtentRef :=
  { xmin := vtkDoubleMax, xmax := vtkDoubleMin
    ymin := vtkDoubleMax, ymax := vtkDoubleMin
    zmin := vtkDoubleMax, zmax := vtkDoubleMin }

/-- Corner c0 of the input US image (line 142): (frameExtent[0], frameExtent[2], 0, 1). -/
def cornerA (image : VtkImageData) : Vec4 :=
  ![(image.extent0 : ℚ), (image.extent2 : ℚ), 0, 1]

/-- Corner c1 of the input US image (line 143): (frameExtent[0], frameExtent[3], 0, 1). -/
def cornerB (image : VtkImageData) : Vec4 :=
  ![(image.extent0 : ℚ), (image.extent3 : ℚ), 0, 1]

/-- Corner c2 of the input US image (line 144): (frameExtent[1], frameExtent[2], 0, 1). -/
def cornerC (image : VtkImageData) : Vec4 :=
  ![(image.extent1 : ℚ), (image.extent2 : ℚ), 0, 1]

/-- Corner c3 of the input US image (line 145): (frameExtent[1], frameExtent[3], 0, 1). -/
def cornerD (image : VtkImageData) : Vec4 :=
  ![(image.extent1 : ℚ), (image.extent3 : ℚ), 0, 1]

/-- The four corner points of the input US image (lines 142-149), in homogeneous
pixel coordinates: built from frameExtent[0..3], with z = 0 and w = 1. -/
def imageCorners (image : VtkImageData) : List Vec4 :=
  [cornerA image, cornerB image, cornerC image, cornerD image]

/-- The inner axis loop of AddImageToExtent (lines 157-169) applied to one
transformed corner: decrease each min that the corner undershoots, increase each
max that it overshoots. -/
def expandExtent (e : ExtentRef) (p : Vec4) : ExtentRef :=
  { xmin := if p 0 < e.xmin then p 0 else e.xmin
    xmax := if p 0 > e.xmax then p 0 else e.xmax
    ymin := if p 1 < e.ymin then p 1 else e.ymin
    ymax := if p 1 > e.ymax then p 1 else e.ymax
    zmin := if p 2 < e.zmin then p 2 else e.zmin
    zmax := if p 2 > e.zmax then p 2 else e.zmax }

/-- vtkVolumeReconstructor::AddImageToExtent (line 135): transform the four image
corners to Reference with mImageToReference and expand extent_Ref as needed. -/
def addImageToExtent (image : VtkImageData) (mImageToReference : Mat4)
    (extentRef : ExtentRef) : ExtentRef :=
  (imageCorners image).foldl
    (fun e corner => expandExtent e (multiplyPoint mImageToReference corner))
    extentRef

/-- One iteration of the frame loop of SetOutputExtentFromFrameList (lines 184-201):
if the image-to-reference transform of the frame cannot be obtained the frame is
skipped (`continue`), otherwise its image is added to the extent. -/
def extentLoopStep (imageToTool : Mat4) (e : ExtentRef) (frame : TrackedFrame) :
    ExtentRef :=
  match getImageToReferenceTransformFrame imageToTool frame with
  | none => e
  | some m => addImageToExtent frame.imageData m e

/-- The whole frame loop of SetOutputExtentFromFrameList, starting from the
sentinel-initialized extent_Ref. -/
def extentLoop (imageToTool : Mat4) (frames : List TrackedFrame) : ExtentRef :=
  frames.foldl (extentLoopStep imageToTool) initExtentRef

/-- The C++ cast double -> int: truncation toward zero. -/
def cppTruncToInt (q : ℚ) : Int :=
  if 0 ≤ q then ⌊q⌋ else ⌈q⌉

/-- The integer output extent computed at lines 205-209: lower bounds stay 0,
outputExtent[2*axis+1] = int((max - min) / spacing[axis]). -/
def computeOutputExtent (spacing : Fin 3 → ℚ) (e : ExtentRef) : Fin 6 → Int :=
  ![0, cppTruncToInt ((e.xmax - e.xmin) / spacing 0),
    0, cppTruncToInt ((e.ymax - e.ymin) / spacing 1),
    0, cppTruncToInt ((e.zmax - e.zmin) / spacing 2)]

/-- Outcome of vtkVolumeReconstructorFilter::ResetOutput as observed by the caller:
it returns PLUS_SUCCESS, returns a failure status, or throws std::bad_alloc. -/
inductive ResetOutcome where
  | success : ResetOutcome
  | fail : ResetOutcome
  | badAlloc : ResetOutcome
deriving DecidableEq, Repr

/-- Modelled from the spec: vtkVolumeReconstructorFilter (the reconstruction filter
the wrapper delegates to) is not among the sources. Only what the wrapper reads is
modelled: its configured output spacing (GetOutputSpacing, three positive doubles per
the spec) and the outcome of ResetOutput for a requested extent and origin — the
spec's Volume Allocator either succeeds, fails, or runs out of memory
(std::bad_alloc) when the grid is too large. -/
structure ReconstructorFilter where
  outputSpacing : Fin 3 → ℚ
  resetOutcome : (Fin 6 → Int) → (Fin 3 → ℚ) → ResetOutcome

/-- vtkVolumeReconstructor::SetOutputExtentFromFrameList (line 174): fold all frames
into extent_Ref, derive the integer output extent and the origin, then reset the
reconstructor output; a ResetOutput failure status and a caught std::bad_alloc both
yield PLUS_FAIL, success yields PLUS_SUCCESS. Returns the status together with the
output extent and origin handed to the filter. -/
def setOutputExtentFromFrameList (r : ReconstructorFilter) (imageToTool : Mat4)
    (frames : List TrackedFrame) : PlusStatus × (Fin 6 → Int) × (Fin 3 → ℚ) :=
  let e := extentLoop imageToTool frames
  let outputExtent := computeOutputExtent r.outputSpacing e
  let origin : Fin 3 → ℚ := ![e.xmin, e.ymin, e.zmin]
  match r.resetOutcome outputExtent origin with
  | ResetOutcome.success => (PLUS_SUCCESS, outputExtent, origin)
  | ResetOutcome.fail => (PLUS_FAIL, outputExtent, origin)
  | ResetOutcome.badAlloc => (PLUS_FAIL, outputExtent, origin)

/-- The reconstruction volume held by the filter, reduced to what the wrapper code
observes: an integer extent, origin and spacing, a number of scalar components per
voxel, and the scalar value at each voxel index and component. Component 0 is the
accumulated intensity; component 1 is the contribution mask. -/
structure VtkVolumeData where
  extent : Fin 6 → Int
  origin : Fin 3 → ℚ
  spacing : Fin 3 → ℚ
  numberOfComponents : ℕ
  scalar : Int → Int → Int → ℕ → ℚ

/-- vtkVolumeReconstructor::AddTrackedFrame (line 232): resolve the frame's
image-to-reference transform — on failure return PLUS_FAIL without touching the
volume — then delegate to vtkVolumeReconstructorFilter::InsertSlice. `insertSlice`
stands for the filter's InsertSlice (not among the sources), acting on the current
reconstruction volume and returning a status with the updated volume. -/
def addTrackedFrame (imageToTool : Mat4)
    (insertSlice : VtkImageData → Mat4 → VtkVolumeData → PlusStatus × VtkVolumeData)
    (frame : TrackedFrame) (volume : VtkVolumeData) : PlusStatus × VtkVolumeData :=
  match getImageToReferenceTransformFrame imageToTool frame with
  | none => (PLUS_FAIL, volume)
  | some m => insertSlice frame.imageData m volume

/-- Modelled from the spec: vtkImageExtractComponents is an external VTK filter
(generic image utilities are out of scope per the spec); configured with
SetComponents(0) it keeps only scalar component 0 of its input, preserving the
extent, origin and spacing. -/
def vtkImageExtractComponents0 (v : VtkVolumeData) : VtkVolumeData :=
  { extent := v.extent
    origin := v.origin
    spacing := v.spacing
    numberOfComponents := 1
    scalar := fun i j k c => if c = 0 then v.scalar i j k 0 else 0 }

/-- vtkVolumeReconstructor::GetReconstructedVolume (line 247): extract component 0
of the filter's reconstructed volume (the other component is the mask that shows
which voxels were pasted from slices) and deep-copy it into the output. -/
def getReconstructedVolume (reconstructorVolume : VtkVolumeData) : VtkVolumeData :=
  vtkImageExtractComponents0 reconstructorVolume

/-- The configuration XML tree, reduced to the nested elements ReadConfiguration
looks up: USDataCollection, its Tracker, the Tool with Type = Probe, its
Calibration, and the 16-valued MatrixValue attribute (GetVectorAttribute returns
failure when absent or not 16 doubles, modelled by `none`). -/
structure CalibrationElement where
  matrixValue : Option (Fin 16 → ℚ)

structure ToolElement where
  calibration : Option CalibrationElement

structure TrackerElement where
  probeTool : Option ToolElement

structure DataCollectionElement where
  tracker : Option TrackerElement

structure ConfigTree where
  usDataCollection : Option DataCollectionElement

/-- vtkMatrix4x4 built from a row-major double[16], as vtkTransform::SetMatrix reads
it: entry (i, j) is element 4*i+j. -/
def matrixFromArray16 (a : Fin 16 → ℚ) : Mat4 :=
  Matrix.of fun i j => a ⟨4 * i.val + j.val, by omega⟩

/-- vtkVolumeReconstructor::ReadConfiguration (line 61), restricted to its effect on
the stored ImageToToolTransform: each missing element returns PLUS_FAIL leaving the
transform as it was; only after every lookup succeeded is the transform set from the
MatrixValue attribute. (The call that forwards the tree to the filter's own
ReadConfiguration does not touch ImageToToolTransform.) -/
def readConfiguration (config : ConfigTree) (imageToTool : Mat4) :
    PlusStatus × Mat4 :=
  match config.usDataCollection with
  | none => (PLUS_FAIL, imageToTool)
  | some dataCollectionConfig =>
    match dataCollectionConfig.tracker with
    | none => (PLUS_FAIL, imageToTool)
    | some trackerDefinition =>
      match trackerDefinition.probeTool with
      | none => (PLUS_FAIL, imageToTool)
      | some probeDefinition =>
        match probeDefinition.calibration with
        | none => (PLUS_FAIL, imageToTool)
        | some calibration =>
          match calibration.matrixValue with
          | none => (PLUS_FAIL, imageToTool)
          | some aImageToTool => (PLUS_SUCCESS, matrixFromArray16 aImageToTool)

/-- A required element of the configuration tree is missing, in the sense of the
five failure paths of ReadConfiguration. -/
def configElementMissing (config : ConfigTree) : Prop :=
  match config.usDataCollection with
  | none => True
  | some dataCollectionConfig =>
    match dataCollectionConfig.tracker with
    | none => True
    | some trackerDefinition =>
      match trackerDefinition.probeTool with
      | none => True
      | some probeDefinition =>
        match probeDefinition.calibration with
        | none => True
        | some calibration => calibration.matrixValue = none

/-- The smallest reference-space coordinate along `axis` among the four transformed
corners of an image (the value the min half of AddImageToExtent accumulates). -/
def frameAxisMin (image : VtkImageData) (m : Mat4) (axis : Fin 4) : ℚ :=
  min (min (min (multiplyPoint m (cornerA image) axis)
                (multiplyPoint m (cornerB image) axis))
           (multiplyPoint m (cornerC image) axis))
      (multiplyPoint m (cornerD image) axis)

/-- The largest reference-space coordinate along `axis` among the four transformed
corners of an image (the value the max half of AddImageToExtent accumulates). -/
def frameAxisMax (image : VtkImageData) (m : Mat4) (axis : Fin 4) : ℚ :=
  max (max (max (multiplyPoint m (cornerA image) axis)
                (multiplyPoint m (cornerB image) axis))
           (multiplyPoint m (cornerC image) axis))
      (multiplyPoint m (cornerD image) axis)

/-- Stated from the spec (§4.2): fold one transformed corner point into the running
axis-aligned per-axis min/max. -/
def specFoldPoint (e : ExtentRef) (p : Vec4) : ExtentRef :=
  { xmin := min e.xmin (p 0), xmax := max e.xmax (p 0)
    ymin := min e.ymin (p 1), ymax := max e.ymax (p 1)
    zmin := min e.zmin (p 2), zmax := max e.zmax (p 2) }

/-- Stated from the spec (§4.2): compute the frame's four pixel-space image corners
(xmin,ymin), (xmin,ymax), (xmax,ymin), (xmax,ymax) at a nominal z of 0 — the frame
extent entries 0 and 1 are the pixel x bounds and entries 2 and 3 the pixel y
bounds — transform each corner through the frame's ImageToReferenceTransform, and
fold each transformed point into the running per-axis min/max. -/
def specAddImageToExtent (image : VtkImageData) (mImageToReference : Mat4)
    (e : ExtentRef) : ExtentRef :=
  (([ ![(image.extent0 : ℚ), (image.extent2 : ℚ), 0, 1]
    , ![(image.extent0 : ℚ), (image.extent3 : ℚ), 0, 1]
    , ![(image.extent1 : ℚ), (image.extent2 : ℚ), 0, 1]
    , ![(image.extent1 : ℚ), (image.extent3 : ℚ), 0, 1] ]).map
      (multiplyPoint mImageToReference)).foldl specFoldPoint e

/-- A 10 x 20 pixel example image: extent [0,10,0,20,0,0]. -/
def exampleImage : VtkImageData := ⟨0, 10, 0, 20, 0, 0⟩

/-- An example frame with identity pose over the example image; its corners span
[0,10] x [0,20] x [0,0] in the reference frame when the calibration is identity. -/
def exampleFrame : TrackedFrame := ⟨some 1, exampleImage⟩

/-- An example frame with no recorded pose (GetDefaultFrameTransform fails). -/
def frameNoPose : TrackedFrame := ⟨none, exampleImage⟩

/-- A filter with unit output spacing whose ResetOutput always succeeds. -/
def allocSucceedsUnitFilter : ReconstructorFilter :=
  ⟨![1, 1, 1], fun _ _ => ResetOutcome.success⟩

/-- A filter with unit output spacing whose ResetOutput always throws
std::bad_alloc (the volume never fits in memory). -/
def allocBadAllocUnitFilter : ReconstructorFilter :=
  ⟨![1, 1, 1], fun _ _ => ResetOutcome.badAlloc⟩

/-- A concrete empty two-component reconstruction volume. -/
def emptyVolume : VtkVolumeData :=
  ⟨![0, 0, 0, 0, 0, 0], ![0, 0, 0], ![1, 1, 1], 2, fun _ _ _ _ => 0⟩

/-- A concrete InsertSlice stand-in that accepts every slice without modification. -/
def insertSliceNoop :
    VtkImageData → Mat4 → VtkVolumeData → PlusStatus × VtkVolumeData :=
  fun _ _ volume => (PLUS_SUCCESS, volume)

/-- A configuration tree whose USDataCollection element has no Tracker element. -/
def missingTrackerConfig : ConfigTree := ⟨some ⟨none⟩⟩

/-! Helper lemmas. -/

theorem multiply4x4_eq_mul (a b : Mat4) : multiply4x4 a b = a * b := by
  ext i j
  rw [Matrix.mul_apply]
  rfl

theorem multiplyPoint_eq_mulVec (m : Mat4) (v : Vec4) :
    multiplyPoint m v = m.mulVec v := rfl

theorem multiplyPoint_one (v : Vec4) : multiplyPoint 1 v = v := by
  rw [multiplyPoint_eq_mulVec, Matrix.one_mulVec]

theorem ite_lt_eq_min (a b : ℚ) : (if b < a then b else a) = min a b := by
  rcases le_or_lt a b with h | h
  · rw [if_neg (not_lt.mpr h), min_eq_left h]
  · rw [if_pos h, min_eq_right h.le]

theorem ite_gt_eq_max (a b : ℚ) : (if b > a then b else a) = max a b := by
  rcases le_or_lt b a with h | h
  · rw [if_neg (not_lt.mpr h), max_eq_left h]
  · rw [if_pos h, max_eq_right h.le]

theorem maxRightComm (a b c : ℚ) : max (max a b) c = max (max a c) b := by
  rw [max_assoc, max_comm b c, max_assoc]

/-- The corner-update step of AddImageToExtent is exactly the spec's min/max fold. -/
theorem expandExtent_minmax (e : ExtentRef) (p : Vec4) :
    expandExtent e p = specFoldPoint e p := by
  unfold expandExtent specFoldPoint
  rw [ite_lt_eq_min, ite_gt_eq_max, ite_lt_eq_min, ite_gt_eq_max, ite_lt_eq_min,
    ite_gt_eq_max]

/-- Normal form of AddImageToExtent: each bound is the prior bound combined with
the min (resp. max) over the four transformed corner coordinates. -/
theorem addImageToExtent_minmax (image : VtkImageData) (m : Mat4) (e : ExtentRef) :
    addImageToExtent image m e =
      { xmin := min e.xmin (frameAxisMin image m 0)
        xmax := max e.xmax (frameAxisMax image m 0)
        ymin := min e.ymin (frameAxisMin image m 1)
        ymax := max e.ymax (frameAxisMax image m 1)
        zmin := min e.zmin (frameAxisMin image m 2)
        zmax := max e.zmax (frameAxisMax image m 2) } := by
  show expandExtent (expandExtent (expandExtent (expandExtent e
      (multiplyPoint m (cornerA image))) (multiplyPoint m (cornerB image)))
      (multiplyPoint m (cornerC image))) (multiplyPoint m (cornerD image)) = _
  rw [expandExtent_minmax, expandExtent_minmax, expandExtent_minmax,
    expandExtent_minmax]
  simp only [specFoldPoint, frameAxisMin, frameAxisMax]
  ext <;> simp only [min_assoc, max_assoc]

/-- Two frame-loop steps commute: folding frame f then frame g into the running
extent gives the same result as folding g then f. -/
theorem extentLoopStep_rightComm (imageToTool : Mat4) (e : ExtentRef)
    (f g : TrackedFrame) :
    extentLoopStep imageToTool (extentLoopStep imageToTool e f) g =
      extentLoopStep imageToTool (extentLoopStep imageToTool e g) f := by
  unfold extentLoopStep
  rcases hf : getImageToReferenceTransformFrame imageToTool f with _ | mf <;>
    rcases hg : getImageToReferenceTransformFrame imageToTool g with _ | mg <;>
      simp only [addImageToExtent_minmax]
  simp [ExtentRef.mk.injEq, min_right_comm, maxRightComm]

/-- The frame fold of SetOutputExtentFromFrameList is invariant under permutation
of the frame list, from any starting extent. -/
theorem extentFold_perm (imageToTool : Mat4) {l1 l2 : List TrackedFrame}
    (h : l1.Perm l2) :
    ∀ e : ExtentRef, l1.foldl (extentLoopStep imageToTool) e =
      l2.foldl (extentLoopStep imageToTool) e := by
  induction h with
  | nil => intro e; rfl
  | cons x _ ih => intro e; simp only [List.foldl_cons]; exact ih _
  | swap x y l => intro e; simp only [List.foldl_cons]; rw [extentLoopStep_rightComm]
  | trans _ _ ih1 ih2 => intro e; rw [ih1, ih2]

/-! Evaluation on the concrete example. -/

theorem getImageToReference_example :
    getImageToReferenceTransformFrame 1 exampleFrame = some 1 := by
  simp [getImageToReferenceTransformFrame, exampleFrame,
    getImageToReferenceTransformMatrixM, multiply4x4_eq_mul]

theorem extentLoop_example :
    extentLoop 1 [exampleFrame] = ⟨0, 10, 0, 20, 0, 0⟩ := by
  unfold extentLoop
  simp only [List.foldl_cons, List.foldl_nil, extentLoopStep,
    getImageToReference_example]
  rw [show exampleFrame.imageData = exampleImage from rfl, addImageToExtent_minmax]
  simp only [frameAxisMin, frameAxisMax, multiplyPoint_one, cornerA, cornerB,
    cornerC, cornerD, exampleImage, initExtentRef, vtkDoubleMin, vtkDoubleMax]
  norm_num [ExtentRef.mk.injEq]

theorem setOutputExtent_example :
    setOutputExtentFromFrameList allocSucceedsUnitFilter 1 [exampleFrame] =
      (PLUS_SUCCESS, ![0, 10, 0, 20, 0, 0], ![0, 0, 0]) := by
  unfold setOutputExtentFromFrameList
  simp only [extentLoop_example, allocSucceedsUnitFilter]
  refine Prod.ext rfl (Prod.ext ?_ ?_)
  · funext i
    fin_cases i <;>
      norm_num [computeOutputExtent, cppTruncToInt]
  · rfl

/-- The truncating cast cppTruncToInt is the floor for a non-negative argument. -/
theorem cppTruncToInt_of_nonneg (q : ℚ) (h : 0 ≤ q) : cppTruncToInt q = ⌊q⌋ :=
  if_pos h

/-- The extent/origin half of the result of SetOutputExtentFromFrameList does not
depend on the allocation outcome. -/
theorem setOutputExtent_snd (r : ReconstructorFilter) (imageToTool : Mat4)
    (frames : List TrackedFrame) :
    (setOutputExtentFromFrameList r imageToTool frames).2 =
      (computeOutputExtent r.outputSpacing (extentLoop imageToTool frames),
        ![(extentLoop imageToTool frames).xmin, (extentLoop imageToTool frames).ymin,
          (extentLoop imageToTool frames).zmin]) := by
  unfold setOutputExtentFromFrameList
  dsimp only
  cases r.resetOutcome
      (computeOutputExtent r.outputSpacing (extentLoop imageToTool frames))
      ![(extentLoop imageToTool frames).xmin, (extentLoop imageToTool frames).ymin,
        (extentLoop imageToTool frames).zmin] <;> rfl

/-- The hypotheses of the C2 theorem hold at the concrete single-frame example. -/
theorem exampleHyps :
    0 < allocSucceedsUnitFilter.outputSpacing 0 ∧
    0 < allocSucceedsUnitFilter.outputSpacing 1 ∧
    0 < allocSucceedsUnitFilter.outputSpacing 2 ∧
    (extentLoop 1 [exampleFrame]).xmin ≤ (extentLoop 1 [exampleFrame]).xmax ∧
    (extentLoop 1 [exampleFrame]).ymin ≤ (extentLoop 1 [exampleFrame]).ymax ∧
    (extentLoop 1 [exampleFrame]).zmin ≤ (extentLoop 1 [exampleFrame]).zmax := by
  refine ⟨?_, ?_, ?_, ?_, ?_, ?_⟩ <;>
    norm_num [allocSucceedsUnitFilter, extentLoop_example]

/-! Claim theorems. -/

/-- C1: for every frame with a valid pose, the resolved per-frame transform
returned by GetImageToReferenceTransformMatrix equals the matrix product
ToolToReference * ImageToTool (calibration applied first, tracking pose second;
the product is not commuted). -/
theorem claim_C1_transform_composition (imageToTool : Mat4) (frame : TrackedFrame)
    (toolToReference : Mat4)
    (h : frame.defaultFrameTransform = some toolToReference) :
    getImageToReferenceTransformFrame imageToTool frame =
      some (toolToReference * imageToTool) := by
  simp [getImageToReferenceTransformFrame, h, getImageToReferenceTransformMatrixM,
    multiply4x4_eq_mul]

theorem claim_C1_witness :
    getImageToReferenceTransformFrame 1 exampleFrame = some ((1 : Mat4) * 1) :=
  claim_C1_transform_composition 1 exampleFrame 1 rfl

/-- C2: SetOutputExtentFromFrameList produces, on each axis, an integer voxel
extent with lower bound 0 and upper bound floor((max - min) / spacing[axis]) of
the folded physical bounding box, and sets the origin to the per-axis minimum
(here stated for a box with min ≤ max per axis and positive spacing); and on the
concrete single frame whose corners span [0,10] x [0,20] x [0,0] with spacing
(1,1,1) the extent is [0,10,0,20,0,0] and the origin (0,0,0). -/
theorem claim_C2_output_extent_formula (r : ReconstructorFilter) (imageToTool : Mat4)
    (frames : List TrackedFrame)
    (hs0 : 0 < r.outputSpacing 0) (hs1 : 0 < r.outputSpacing 1)
    (hs2 : 0 < r.outputSpacing 2)
    (hx : (extentLoop imageToTool frames).xmin ≤ (extentLoop imageToTool frames).xmax)
    (hy : (extentLoop imageToTool frames).ymin ≤ (extentLoop imageToTool frames).ymax)
    (hz : (extentLoop imageToTool frames).zmin ≤ (extentLoop imageToTool frames).zmax) :
    ((setOutputExtentFromFrameList r imageToTool frames).2.1 =
        ![0, ⌊((extentLoop imageToTool frames).xmax -
              (extentLoop imageToTool frames).xmin) / r.outputSpacing 0⌋,
          0, ⌊((extentLoop imageToTool frames).ymax -
              (extentLoop imageToTool frames).ymin) / r.outputSpacing 1⌋,
          0, ⌊((extentLoop imageToTool frames).zmax -
              (extentLoop imageToTool frames).zmin) / r.outputSpacing 2⌋] ∧
      (setOutputExtentFromFrameList r imageToTool frames).2.2 =
        ![(extentLoop imageToTool frames).xmin, (extentLoop imageToTool frames).ymin,
          (extentLoop imageToTool frames).zmin]) ∧
    setOutputExtentFromFrameList allocSucceedsUnitFilter 1 [exampleFrame] =
      (PLUS_SUCCESS, ![0, 10, 0, 20, 0, 0], ![0, 0, 0]) := by
  refine ⟨⟨?_, congrArg Prod.snd (setOutputExtent_snd r imageToTool frames)⟩,
    setOutputExtent_example⟩
  rw [congrArg Prod.fst (setOutputExtent_snd r imageToTool frames)]
  unfold computeOutputExtent
  rw [cppTruncToInt_of_nonneg _ (div_nonneg (sub_nonneg.mpr hx) hs0.le),
    cppTruncToInt_of_nonneg _ (div_nonneg (sub_nonneg.mpr hy) hs1.le),
    cppTruncToInt_of_nonneg _ (div_nonneg (sub_nonneg.mpr hz) hs2.le)]

theorem claim_C2_witness :
    setOutputExtentFromFrameList allocSucceedsUnitFilter 1 [exampleFrame] =
      (PLUS_SUCCESS, ![0, 10, 0, 20, 0, 0], ![0, 0, 0]) :=
  (claim_C2_output_extent_formula allocSucceedsUnitFilter 1 [exampleFrame]
    exampleHyps.1 exampleHyps.2.1 exampleHyps.2.2.1 exampleHyps.2.2.2.1
    exampleHyps.2.2.2.2.1 exampleHyps.2.2.2.2.2).2

/-- C3: evaluation of the code at the failing input. With zero valid-pose frames
(here the empty list), unit spacing and an allocator that succeeds,
SetOutputExtentFromFrameList does NOT detect the sentinel (inverted) bounding box:
it returns PLUS_SUCCESS and hands the filter an output extent whose upper x index
bound is negative — a nonsensical negative-size volume — instead of reporting an
EmptyExtentError failure. -/
theorem claim_C3_no_empty_extent_check :
    (setOutputExtentFromFrameList allocSucceedsUnitFilter 1 []).1 = PLUS_SUCCESS ∧
    (setOutputExtentFromFrameList allocSucceedsUnitFilter 1 []).2.1 1 < 0 := by
  constructor
  · rfl
  · have heq : (setOutputExtentFromFrameList allocSucceedsUnitFilter 1 []).2.1 1 =
        cppTruncToInt ((vtkDoubleMin - vtkDoubleMax) / 1) := rfl
    rw [heq]
    have h0 : ¬ (0 ≤ (vtkDoubleMin - vtkDoubleMax) / 1) := by
      norm_num [vtkDoubleMin, vtkDoubleMax]
    have h1 : (vtkDoubleMin - vtkDoubleMax) / 1 ≤ ((-1 : Int) : ℚ) := by
      norm_num [vtkDoubleMin, vtkDoubleMax]
    rw [cppTruncToInt, if_neg h0]
    exact lt_of_le_of_lt (Int.ceil_le.mpr h1) (by norm_num)

/-- C4: for every frame lacking a valid pose, resolving its transform fails
(MissingPoseError, the PLUS_FAIL path), AddTrackedFrame returns failure before
InsertSlice leaving the volume unchanged, and during extent estimation the frame
is skipped without affecting the accumulated bounding box while the remaining
frames are still processed. -/
theorem claim_C4_missing_pose_skipped (imageToTool : Mat4) (frame : TrackedFrame)
    (h : frame.defaultFrameTransform = none)
    (insertSlice : VtkImageData → Mat4 → VtkVolumeData → PlusStatus × VtkVolumeData)
    (volume : VtkVolumeData) (pre post : List TrackedFrame) :
    getImageToReferenceTransformFrame imageToTool frame = none ∧
    addTrackedFrame imageToTool insertSlice frame volume = (PLUS_FAIL, volume) ∧
    extentLoop imageToTool (pre ++ frame :: post) =
      extentLoop imageToTool (pre ++ post) := by
  have hg : getImageToReferenceTransformFrame imageToTool frame = none := by
    simp [getImageToReferenceTransformFrame, h]
  have hstep : ∀ e, extentLoopStep imageToTool e frame = e := by
    intro e
    simp [extentLoopStep, hg]
  refine ⟨hg, ?_, ?_⟩
  · simp [addTrackedFrame, hg]
  · unfold extentLoop
    rw [List.foldl_append, List.foldl_append, List.foldl_cons, hstep]

theorem claim_C4_witness :
    getImageToReferenceTransformFrame 1 frameNoPose = none ∧
    addTrackedFrame 1 insertSliceNoop frameNoPose emptyVolume =
      (PLUS_FAIL, emptyVolume) ∧
    extentLoop 1 ([] ++ frameNoPose :: []) = extentLoop 1 ([] ++ []) :=
  claim_C4_missing_pose_skipped 1 frameNoPose rfl insertSliceNoop emptyVolume [] []

/-- C5: for every frame with a valid pose, extent estimation computes exactly the
four pixel-space image corners (xmin,ymin), (xmin,ymax), (xmax,ymin), (xmax,ymax)
at z = 0, transforms each through the frame's ImageToReferenceTransform, and folds
them into a running per-axis min/max initialized to the library's +-infinity
sentinels (+VTK_DOUBLE_MAX / -VTK_DOUBLE_MAX). -/
theorem claim_C5_corner_minmax_fold (image : VtkImageData) (m : Mat4)
    (e : ExtentRef) :
    addImageToExtent image m e = specAddImageToExtent image m e ∧
    initExtentRef = ⟨vtkDoubleMax, -vtkDoubleMax, vtkDoubleMax, -vtkDoubleMax,
      vtkDoubleMax, -vtkDoubleMax⟩ := by
  constructor
  · unfold addImageToExtent specAddImageToExtent
    simp only [imageCorners, List.map_cons, List.map_nil, List.foldl_cons,
      List.foldl_nil, expandExtent_minmax]
    rfl
  · rfl

/-- C6: when resetting the output volume runs out of memory (std::bad_alloc from
ResetOutput), SetOutputExtentFromFrameList reports the recoverable failure status
PLUS_FAIL to the caller instead of propagating the exception. -/
theorem claim_C6_alloc_failure_reported (r : ReconstructorFilter)
    (imageToTool : Mat4) (frames : List TrackedFrame)
    (h : r.resetOutcome
          (computeOutputExtent r.outputSpacing (extentLoop imageToTool frames))
          ![(extentLoop imageToTool frames).xmin,
            (extentLoop imageToTool frames).ymin,
            (extentLoop imageToTool frames).zmin] = ResetOutcome.badAlloc) :
    (setOutputExtentFromFrameList r imageToTool frames).1 = PLUS_FAIL := by
  unfold setOutputExtentFromFrameList
  dsimp only
  rw [h]

theorem claim_C6_witness :
    (setOutputExtentFromFrameList allocBadAllocUnitFilter 1 []).1 = PLUS_FAIL :=
  claim_C6_alloc_failure_reported allocBadAllocUnitFilter 1 [] rfl

/-- C7: GetReconstructedVolume yields a single-channel volume with the same
extent, spacing and origin as the reconstruction volume, whose only component is
component 0 (the intensity channel) with every voxel value unchanged; the
mask/contribution channel is not present. -/
theorem claim_C7_output_extractor (v : VtkVolumeData) :
    (getReconstructedVolume v).extent = v.extent ∧
    (getReconstructedVolume v).spacing = v.spacing ∧
    (getReconstructedVolume v).origin = v.origin ∧
    (getReconstructedVolume v).numberOfComponents = 1 ∧
    ∀ i j k : Int, (getReconstructedVolume v).scalar i j k 0 = v.scalar i j k 0 :=
  ⟨rfl, rfl, rfl, rfl, fun _ _ _ => rfl⟩

/-- C8: the result of SetOutputExtentFromFrameList (status, output extent and
origin) is invariant under any permutation of the input frame list, because the
per-frame bounding-box fold is an order-insensitive min/max reduction. -/
theorem claim_C8_permutation_invariant (r : ReconstructorFilter)
    (imageToTool : Mat4) (frames1 frames2 : List TrackedFrame)
    (h : frames1.Perm frames2) :
    setOutputExtentFromFrameList r imageToTool frames1 =
      setOutputExtentFromFrameList r imageToTool frames2 := by
  have hloop : extentLoop imageToTool frames1 = extentLoop imageToTool frames2 :=
    extentFold_perm imageToTool h initExtentRef
  unfold setOutputExtentFromFrameList
  rw [hloop]

theorem claim_C8_witness :
    setOutputExtentFromFrameList allocSucceedsUnitFilter 1
        [exampleFrame, frameNoPose] =
      setOutputExtentFromFrameList allocSucceedsUnitFilter 1
        [frameNoPose, exampleFrame] :=
  claim_C8_permutation_invariant allocSucceedsUnitFilter 1 _ _
    (List.Perm.swap frameNoPose exampleFrame [])

/-- C9: AddImageToExtent only widens the accumulated bounding box: each resulting
per-axis minimum is at most the prior minimum and each resulting per-axis maximum
is at least the prior maximum. -/
theorem claim_C9_extent_only_widens (image : VtkImageData) (m : Mat4)
    (e : ExtentRef) :
    (addImageToExtent image m e).xmin ≤ e.xmin ∧
    e.xmax ≤ (addImageToExtent image m e).xmax ∧
    (addImageToExtent image m e).ymin ≤ e.ymin ∧
    e.ymax ≤ (addImageToExtent image m e).ymax ∧
    (addImageToExtent image m e).zmin ≤ e.zmin ∧
    e.zmax ≤ (addImageToExtent image m e).zmax := by
  rw [addImageToExtent_minmax]
  exact ⟨min_le_left _ _, le_max_left _ _, min_le_left _ _, le_max_left _ _,
    min_le_left _ _, le_max_left _ _⟩

/-- C10: ReadConfiguration is atomic with respect to the calibration transform:
whenever a required configuration element (USDataCollection, Tracker, probe Tool,
Calibration, or the 16-value MatrixValue attribute) is missing it returns
PLUS_FAIL with the stored ImageToToolTransform unchanged, and the transform is
modified only on the success path after all lookups have succeeded. -/
theorem claim_C10_read_config_atomic (config : ConfigTree) (imageToTool : Mat4) :
    (configElementMissing config →
      readConfiguration config imageToTool = (PLUS_FAIL, imageToTool)) ∧
    ((readConfiguration config imageToTool).1 = PLUS_FAIL →
      (readConfiguration config imageToTool).2 = imageToTool) ∧
    (¬ configElementMissing config →
      (readConfiguration config imageToTool).1 = PLUS_SUCCESS) := by
  rcases config with ⟨_ | ⟨_ | ⟨_ | ⟨_ | ⟨_ | a⟩⟩⟩⟩⟩
  · exact ⟨fun _ => rfl, fun _ => rfl, fun hn => absurd trivial hn⟩
  · exact ⟨fun _ => rfl, fun _ => rfl, fun hn => absurd trivial hn⟩
  · exact ⟨fun _ => rfl, fun _ => rfl, fun hn => absurd trivial hn⟩
  · exact ⟨fun _ => rfl, fun _ => rfl, fun hn => absurd trivial hn⟩
  · exact ⟨fun _ => rfl, fun _ => rfl, fun hn => absurd rfl hn⟩
  · exact ⟨fun hm => Option.noConfusion hm,
      fun hf => PlusStatus.noConfusion hf, fun _ => rfl⟩

theorem claim_C10_witness :
    readConfiguration missingTrackerConfig 1 = (PLUS_FAIL, 1) :=
  (claim_C10_read_config_atomic missingTrackerConfig 1).1 True.intro

end PlusVolRec
